import Mathlib

/-!
Shallow embedding of `src/dbbackup/management/commands/dbbackup.py`
(django-dbbackup backup command): the per-database handle loop,
`_save_new_backup` (compress/encrypt pipeline, filename override, write)
and `_cleanup_old_backups` (retention slice, lexicographic sort,
timestamp parse, first-of-month guard, delete).

External collaborators (`utils.compress_file`, `utils.encrypt_file`,
`dbcommands.filter_filepaths`, `dbcommands.filename_match` + `re.findall`
+ `strptime`, the storage backend) are not part of `src/`; they are
modelled from the spec as parameters or suffix-appending functions,
each flagged in its doc comment.
-/

namespace Dbbackup

/-- A parsed backup timestamp, as recovered by
`datetime.strptime(datestr, DATE_FORMAT)` (only the fields the cleanup
logic inspects: `strftime("%d")` is the day of month). -/
structure Date where
  year : Nat
  month : Nat
  day : Nat
deriving DecidableEq, Repr

/-- Python list slice `l[0:stop]` with Python's negative-index and
clamping semantics: a negative `stop` counts from the end (clamped at 0),
a nonnegative `stop` is clamped at `len(l)`. -/
def pySlice0 (l : List α) (stop : Int) : List α :=
  if stop < 0 then l.take (l.length - stop.natAbs)
  else l.take stop.toNat

/-- Lexicographic comparison of character sequences by code point,
the order Python uses to compare strings. -/
def lexLe : List Char → List Char → Bool
  | [], _ => true
  | _ :: _, [] => false
  | a :: as, b :: bs =>
    if a.toNat < b.toNat then true
    else if b.toNat < a.toNat then false
    else lexLe as bs

/-- Python's `<=` on strings: code-point lexicographic order. -/
def strLe (s t : String) : Bool := lexLe s.data t.data

/-- Stable insertion of a string into a sorted list (ascending,
lexicographic), auxiliary to `sortStrings`. -/
def insertStr (s : String) : List String → List String
  | [] => [s]
  | t :: ts => if strLe s t then s :: t :: ts else t :: insertStr s ts

/-- Python's `sorted` on a list of strings: stable ascending
lexicographic sort (used at line 105: `sorted(filepaths[0:-keep])`). -/
def sortStrings : List String → List String
  | [] => []
  | s :: ss => insertStr s (sortStrings ss)

/-- A per-entry failure inside `_cleanup_old_backups`:
`malformed p` models the `IndexError` raised by
`re.findall(regex, basename)[0]` when the pattern does not match
(or `ValueError` from `strptime`); `storageErr p` models a
`StorageError` raised by `storage.delete_file(p)`. -/
inductive CleanupError where
  | malformed (path : String)
  | storageErr (path : String)
deriving DecidableEq, Repr

/-- The external collaborators `_cleanup_old_backups` calls, modelled
from the spec:
* `recognized` — `dbcommands.filter_filepaths` (§4.4 step 1: keep only
  filenames recognized for the current database/servername);
* `parse` — `dbcommands.filename_match` + `re.findall` + `strptime`
  (§4.1: isolates and parses the timestamp; `none` when the pattern
  does not match, which in the source raises `IndexError`);
* `deleteFails` — whether `storage.delete_file` raises `StorageError`
  for a given path (§6). -/
structure CleanupEnv where
  recognized : String → Bool
  parse : String → Option Date
  deleteFails : String → Bool

/-- The `for filepath in sorted(...)` loop body of
`_cleanup_old_backups` (lines 105-112): parse each filepath; an
unparsable one raises out of the loop; a parsable one with day-of-month
different from 1 is deleted; a failing delete raises `StorageError` out
of the loop. Returns the successfully deleted paths (in deletion order)
and the exception, if one escaped. -/
def cleanupLoop (env : CleanupEnv) : List String → List String × Option CleanupError
  | [] => ([], none)
  | p :: rest =>
    match env.parse p with
    | none => ([], some (.malformed p))
    | some dt =>
      if dt.day ≠ 1 then
        if env.deleteFails p then ([], some (.storageErr p))
        else (p :: (cleanupLoop env rest).1, (cleanupLoop env rest).2)
      else cleanupLoop env rest

/-- The deletion candidates of `_cleanup_old_backups` (lines 103-105):
the storage listing filtered by `filter_filepaths`, then the Python
slice `filepaths[0:-clean_keep]` — taken BEFORE any sorting. -/
def candidates (env : CleanupEnv) (keep : Int) (listing : List String) : List String :=
  pySlice0 (listing.filter env.recognized) (-keep)

/-- `Command._cleanup_old_backups` (lines 97-112): list the storage
directory (`listing`), filter, slice off the last `keep` entries of the
listing, sort lexicographically, then iterate deleting every entry whose
parsed day-of-month is not 1. -/
def cleanup (env : CleanupEnv) (keep : Int) (listing : List String) :
    List String × Option CleanupError :=
  cleanupLoop env (sortStrings (candidates env keep listing))

/-- Modelled from the spec: `utils.compress_file` (not under `src/`),
§4.2 — reads the whole stream through `gz`, appends exactly the
compression suffix to the filename. -/
def compress_file (gz : List Nat → List Nat) (outputfile : List Nat) (filename : String) :
    List Nat × String :=
  (gz outputfile, filename ++ ".gz")

/-- Modelled from the spec: `utils.encrypt_file` (not under `src/`),
§4.2 — reads the whole stream through `gpg`, appends exactly the
encryption suffix to the filename. -/
def encrypt_file (gpg : List Nat → List Nat) (outputfile : List Nat) (filename : String) :
    List Nat × String :=
  (gpg outputfile, filename ++ ".gpg")

/-- The artifact construction of `Command._save_new_backup`
(lines 75-84): start from the Naming Policy filename and the connector's
raw dump, optionally compress, optionally encrypt, then let an explicit
output filename override the derived one. Returns the (stream, filename)
pair handed to the write step. `gz`/`gpg` are the content
transformations of the external transform stages. -/
def save_new_backup (gz gpg : List Nat → List Nat)
    (compress encrypt : Bool) (output_filename : Option String)
    (baseFilename : String) (rawDump : List Nat) : List Nat × String :=
  let filename := baseFilename
  let outputfile := rawDump
  let st1 := if compress then compress_file gz outputfile filename
             else (outputfile, filename)
  let st2 := if encrypt then encrypt_file gpg st1.1 st1.2
             else (st1.1, st1.2)
  (st2.1, output_filename.getD st2.2)

/-- Why `_save_new_backup` failed for a database: `storage` models a
`StorageError` from `storage.write_file`; `dump`/`transform` model
exceptions from `connector.create_dump` or the compress/encrypt
utilities, which are not `StorageError` and thus not caught at line 66. -/
inductive SaveError where
  | storage
  | dump
  | transform
deriving DecidableEq, Repr

/-- How a run of `Command.handle` terminates abnormally:
`commandError` is the `raise CommandError(err)` at line 67 (a
`StorageError` was caught); `uncaughtException` is any other exception
escaping `handle` (e.g. the `IndexError` of a malformed filename). -/
inductive RunError where
  | commandError
  | uncaughtException
deriving DecidableEq, Repr

/-- The `RunError` that a `SaveError` turns into inside `handle`:
only `StorageError` is caught and re-raised as `CommandError`. -/
def runErrorOf : SaveError → RunError
  | .storage => .commandError
  | .dump => .uncaughtException
  | .transform => .uncaughtException

/-- Observable side effects of a run, in order: save attempts and
successes per database, the start of a cleanup pass, the
`storage.list_directory()` call and each `storage.delete_file` call. -/
inductive Event where
  | saveAttempt (db : String)
  | saveOk (db : String)
  | cleanupStart (db : String)
  | listDir (db : String)
  | deleteFile (path : String)
deriving DecidableEq, Repr

/-- One configured database as `handle` sees it: its display name, the
outcome of `_save_new_backup` for it this run (`none` = saved without
error), and its cleanup collaborators. -/
structure DB where
  name : String
  saveResult : Option SaveError
  env : CleanupEnv

/-- The body of the per-database loop of `Command.handle`
(lines 54-67) for one database: attempt `_save_new_backup`; on success,
if `--clean` was given run `_cleanup_old_backups`; a `StorageError`
(from save or from a delete) becomes a `CommandError`, any other
exception escapes uncaught. Returns the events that happened and the
exception, if one escaped. -/
def processDb (clean : Bool) (keep : Int) (listing : List String) (d : DB) :
    List Event × Option RunError :=
  match d.saveResult with
  | some e => ([.saveAttempt d.name], some (runErrorOf e))
  | none =>
    if clean then
      let r := cleanup d.env keep listing
      ([.saveAttempt d.name, .saveOk d.name, .cleanupStart d.name, .listDir d.name]
          ++ r.1.map .deleteFile,
       r.2.map fun e => match e with
         | .storageErr _ => .commandError
         | .malformed _ => .uncaughtException)
    else ([.saveAttempt d.name, .saveOk d.name], none)

/-- The per-database loop of `Command.handle` (lines 54-67): databases
are processed in configured order; an exception escaping one database's
processing (the `raise CommandError` at line 67, or an uncaught one)
terminates the loop, so later databases are not reached. -/
def handleLoop (clean : Bool) (keep : Int) (listing : List String) :
    List DB → List Event × Option RunError
  | [] => ([], none)
  | d :: rest =>
    let r := processDb clean keep listing d
    match r.2 with
    | some e => (r.1, some e)
    | none =>
      let r2 := handleLoop clean keep listing rest
      (r.1 ++ r2.1, r2.2)

/-! Concrete example data used to instantiate the theorems: a parse
function for a handful of filenames carrying ISO-like dates (standing
for the regex + `strptime` composite on a concrete `DATE_FORMAT`). -/

/-- Timestamp parsing on the concrete example filenames; every other
string fails to parse (the regex finds no match). -/
def exParse : String → Option Date
  | "x-2023-01-01" => some ⟨2023, 1, 1⟩
  | "x-2023-01-15" => some ⟨2023, 1, 15⟩
  | "x-2023-02-01" => some ⟨2023, 2, 1⟩
  | "x-2023-02-20" => some ⟨2023, 2, 20⟩
  | "x-2023-03-05" => some ⟨2023, 3, 5⟩
  | _ => none

/-- Example cleanup environment: every listed file is recognized, parsing
is `exParse`, and every `delete_file` call succeeds. -/
def exEnv : CleanupEnv := ⟨fun _ => true, exParse, fun _ => false⟩

/-- Example cleanup environment in which deleting `x-2023-01-15` raises
`StorageError` while every other delete succeeds. -/
def exEnvDelFail : CleanupEnv := ⟨fun _ => true, exParse, fun p => p == "x-2023-01-15"⟩

/-- Example database whose save succeeds, with the default environment. -/
def dbA : DB := ⟨"A", none, exEnv⟩

/-- Claim C1: refuted — the code slices `filepaths[0:-keep]` BEFORE
sorting (line 105), so with a storage listing not already in timestamp
order and K = 1 the single most recent backup (`x-2023-03-05`, the
maximal parsed timestamp) IS in the decision set and is deleted, while
the older `x-2023-01-15` is kept. -/
theorem c1_most_recent_deleted :
    cleanup exEnv 1 ["x-2023-03-05", "x-2023-01-15"] = (["x-2023-03-05"], none) ∧
    exEnv.parse "x-2023-03-05" = some ⟨2023, 3, 5⟩ ∧
    exEnv.parse "x-2023-01-15" = some ⟨2023, 1, 15⟩ := by
  refine ⟨rfl, rfl, rfl⟩

/-- Claim C2: refuted — a filename on which parsing fails (`a-bad`,
which sorts first among the candidates) aborts the whole cleanup pass
with an uncaught exception: nothing at all is deleted (the valid,
deletable entry `x-2023-01-15` is not processed), and the run as a whole
terminates with an uncaught exception rather than continuing. -/
theorem c2_malformed_aborts_run :
    cleanup exEnv 1 ["a-bad", "x-2023-01-15", "x-2023-02-20", "x-2023-03-05"]
      = ([], some (CleanupError.malformed "a-bad")) ∧
    (processDb true 1 ["a-bad", "x-2023-01-15", "x-2023-02-20", "x-2023-03-05"] dbA).2
      = some RunError.uncaughtException := by
  refine ⟨rfl, rfl⟩

/-- Claim C3 counterexample: database `A`'s save fails with
`StorageError` and database `B`, configured after it, is never
attempted — the run stops at the first failing database with a
`CommandError` instead of continuing and aggregating. -/
theorem c3_counterexample :
    handleLoop false 2 [] [⟨"A", some .storage, exEnv⟩, ⟨"B", none, exEnv⟩]
      = ([Event.saveAttempt "A"], some RunError.commandError) ∧
    Event.saveAttempt "B"
      ∉ (handleLoop false 2 [] [⟨"A", some .storage, exEnv⟩, ⟨"B", none, exEnv⟩]).1 := by
  refine ⟨rfl, by decide⟩

/-- Claim C3 (amended): a per-database failure aborts the entire run —
a `StorageError` is re-raised as `CommandError` and any other failure
escapes uncaught; in both cases the loop stops, so no database
configured after the failing one is attempted and no aggregate outcome
is produced. -/
theorem c3_failure_aborts_run (clean : Bool) (keep : Int) (listing : List String)
    (d : DB) (rest : List DB) (e : SaveError) (h : d.saveResult = some e) :
    handleLoop clean keep listing (d :: rest)
      = ([Event.saveAttempt d.name], some (runErrorOf e)) := by
  simp [handleLoop, processDb, h]

/-- Witness for `c3_failure_aborts_run` at a concrete two-database run. -/
theorem c3_witness :
    handleLoop false 2 [] [⟨"A", some .storage, exEnv⟩, ⟨"B", none, exEnv⟩]
      = ([Event.saveAttempt "A"], some RunError.commandError) :=
  c3_failure_aborts_run false 2 [] ⟨"A", some .storage, exEnv⟩
    [⟨"B", none, exEnv⟩] .storage rfl

/-- Claim C4 counterexample: with keep count K = -1 (< 1) and cleaning
enabled, the run does NOT fail: the storage listing is fetched, a
deletion is attempted and succeeds, and the run completes without any
error — no retention-config validation exists anywhere in the code. -/
theorem c4_counterexample :
    processDb true (-1) ["x-2023-01-15", "x-2023-03-05"] dbA
      = ([Event.saveAttempt "A", Event.saveOk "A", Event.cleanupStart "A",
          Event.listDir "A", Event.deleteFile "x-2023-01-15"], none) := by
  rfl

/-- Claim C4 (amended): the code performs no keep-count validation and
has no `InvalidRetentionConfig` failure. With keep = 0 the Python slice
`[0:-0] = [0:0]` makes the candidate list empty, so the cleanup pass
deletes nothing and raises nothing (though the storage listing is still
fetched); with keep < 0 the first `|keep|` recognized entries of the
unsorted listing become deletion candidates and may be deleted. -/
theorem c4_no_validation (env : CleanupEnv) (keep : Int) (listing : List String) :
    cleanup env 0 listing = ([], none) ∧
    (keep < 0 →
      candidates env keep listing = (listing.filter env.recognized).take keep.natAbs) := by
  constructor
  · simp [cleanup, candidates, pySlice0, sortStrings, cleanupLoop]
  · intro h
    have h1 : ¬ (-keep < 0) := by omega
    have h2 : (-keep).toNat = keep.natAbs := by omega
    simp [candidates, pySlice0, h1, h2]

/-- Witness for `c4_no_validation` at keep = -1 on a two-entry listing. -/
theorem c4_witness :
    (-1 : Int) < 0 ∧
    candidates exEnv (-1) ["x-2023-01-15", "x-2023-03-05"]
      = (["x-2023-01-15", "x-2023-03-05"].filter exEnv.recognized).take (Int.natAbs (-1)) :=
  ⟨by decide, (c4_no_validation exEnv (-1) ["x-2023-01-15", "x-2023-03-05"]).2 (by decide)⟩

/-- Claim C5 counterexample: deleting the first candidate
`x-2023-01-15` raises `StorageError`, and the next candidate
`x-2023-02-20` — valid, deletable, with a working delete — is never
attempted: the whole pass aborts with the storage error instead of
continuing best-effort. -/
theorem c5_counterexample :
    cleanup exEnvDelFail 1 ["x-2023-01-15", "x-2023-02-20", "x-2023-03-05"]
      = ([], some (CleanupError.storageErr "x-2023-01-15")) ∧
    "x-2023-02-20"
      ∉ (cleanup exEnvDelFail 1 ["x-2023-01-15", "x-2023-02-20", "x-2023-03-05"]).1 ∧
    exEnvDelFail.deleteFails "x-2023-02-20" = false := by
  refine ⟨rfl, by decide, rfl⟩

/-- Claim C5 (amended): a `StorageError` while deleting entry N aborts
the cleanup pass immediately — entries after N in iteration order are
not attempted (the result does not depend on them at all), and the
error escapes the pass to become a `CommandError` for the run; there is
no per-entry failure report. -/
theorem c5_delete_failure_aborts (env : CleanupEnv) (p : String) (rest : List String)
    (dt : Date) (hp : env.parse p = some dt) (hd : dt.day ≠ 1)
    (hf : env.deleteFails p = true) :
    cleanupLoop env (p :: rest) = ([], some (CleanupError.storageErr p)) := by
  simp [cleanupLoop, hp, hd, hf]

/-- Witness for `c5_delete_failure_aborts` on the concrete failing
environment. -/
theorem c5_witness :
    exEnvDelFail.parse "x-2023-01-15" = some ⟨2023, 1, 15⟩ ∧
    (⟨2023, 1, 15⟩ : Date).day ≠ 1 ∧
    exEnvDelFail.deleteFails "x-2023-01-15" = true ∧
    cleanupLoop exEnvDelFail ["x-2023-01-15", "x-2023-02-20"]
      = ([], some (CleanupError.storageErr "x-2023-01-15")) :=
  ⟨rfl, by decide, rfl,
    c5_delete_failure_aborts exEnvDelFail "x-2023-01-15" ["x-2023-02-20"]
      ⟨2023, 1, 15⟩ rfl (by decide) rfl⟩

/-- Helper: every path the cleanup loop actually deletes parsed
successfully to a date whose day-of-month is not 1 (the guard at
line 109 is checked before every `delete_file` call). -/
theorem mem_cleanupLoop_parse_day (env : CleanupEnv) :
    ∀ (l : List String) (p : String), p ∈ (cleanupLoop env l).1 →
      ∃ dt, env.parse p = some dt ∧ dt.day ≠ 1 := by
  intro l
  induction l with
  | nil => intro p hp; simp [cleanupLoop] at hp
  | cons q rest ih =>
    intro p hp
    rw [cleanupLoop] at hp
    cases hq : env.parse q with
    | none => rw [hq] at hp; simp at hp
    | some dt =>
      simp only [hq] at hp
      by_cases hd : dt.day ≠ 1
      · rw [if_pos hd] at hp
        by_cases hf : env.deleteFails q = true
        · rw [if_pos hf] at hp; simp at hp
        · rw [if_neg hf] at hp
          simp only [List.mem_cons] at hp
          cases hp with
          | inl h => exact h ▸ ⟨dt, hq, hd⟩
          | inr h => exact ih p h
      · rw [if_neg hd] at hp; exact ih p hp

/-- Claim C6: in every cleanup pass, a backup whose parsed timestamp
falls on the first day of its month is never deleted — it is never in
the set of deleted paths, whatever the listing, keep count and
environment. -/
theorem c6_first_of_month_protected (env : CleanupEnv) (keep : Int)
    (listing : List String) (p : String) (dt : Date)
    (hp : env.parse p = some dt) (hd : dt.day = 1) :
    p ∉ (cleanup env keep listing).1 := by
  intro hmem
  obtain ⟨dt2, hp2, hd2⟩ := mem_cleanupLoop_parse_day env _ p hmem
  rw [hp] at hp2
  injection hp2 with h
  exact hd2 (h ▸ hd)

/-- Witness for `c6_first_of_month_protected` on the spec's own example
(five dated backups, K = 1): `x-2023-02-01` is outside the protected
tail yet is not deleted. -/
theorem c6_witness :
    exEnv.parse "x-2023-02-01" = some ⟨2023, 2, 1⟩ ∧
    (⟨2023, 2, 1⟩ : Date).day = 1 ∧
    "x-2023-02-01" ∉ (cleanup exEnv 1
      ["x-2023-01-01", "x-2023-01-15", "x-2023-02-01",
       "x-2023-02-20", "x-2023-03-05"]).1 :=
  ⟨rfl, rfl,
    c6_first_of_month_protected exEnv 1
      ["x-2023-01-01", "x-2023-01-15", "x-2023-02-01",
       "x-2023-02-20", "x-2023-03-05"] "x-2023-02-01" ⟨2023, 2, 1⟩ rfl rfl⟩

/-- Claim C7: with keep count K ≥ 1 and at most K recognized backups in
the listing, the cleanup pass deletes nothing and raises nothing: the
candidate slice is empty, so no parse and no `delete_file` call ever
happens. -/
theorem c7_empty_decision_set (env : CleanupEnv) (keep : Int) (listing : List String)
    (h1 : 1 ≤ keep) (h2 : (listing.filter env.recognized).length ≤ keep.toNat) :
    cleanup env keep listing = ([], none) := by
  have hneg : -keep < 0 := by omega
  have hz : (listing.filter env.recognized).length - keep.natAbs = 0 := by omega
  have hc : candidates env keep listing = [] := by
    simp [candidates, pySlice0, hneg, hz]
  simp [cleanup, hc, sortStrings, cleanupLoop]

/-- Witness for `c7_empty_decision_set`: two backups, keep count 2. -/
theorem c7_witness :
    (1 : Int) ≤ 2 ∧
    (["x-2023-01-15", "x-2023-03-05"].filter exEnv.recognized).length ≤ (2 : Int).toNat ∧
    cleanup exEnv 2 ["x-2023-01-15", "x-2023-03-05"] = ([], none) :=
  ⟨by decide, by decide,
    c7_empty_decision_set exEnv 2 ["x-2023-01-15", "x-2023-03-05"]
      (by decide) (by decide)⟩

/-- Claim C8: with compress and encrypt both enabled (and no explicit
output filename, which would replace the derived name wholesale), the
pipeline applies compression first and encryption second: the resulting
stream is `gpg (gz raw)` and the filename carries the compression
suffix first and the encryption suffix last, never reversed. -/
theorem c8_compress_before_encrypt (gz gpg : List Nat → List Nat)
    (baseFilename : String) (rawDump : List Nat) :
    save_new_backup gz gpg true true none baseFilename rawDump
      = (gpg (gz rawDump), (baseFilename ++ ".gz") ++ ".gpg") := by
  rfl

/-- Claim C9: with compress and encrypt both disabled and no explicit
output filename, the pair handed to the write step is exactly the raw
dump stream and the Naming Policy filename, unchanged. -/
theorem c9_noop_passthrough (gz gpg : List Nat → List Nat)
    (baseFilename : String) (rawDump : List Nat) :
    save_new_backup gz gpg false false none baseFilename rawDump
      = (rawDump, baseFilename) := by
  rfl

/-- Claim C10: cleanup work for a database happens only after its
backup was saved without error and only when cleaning was requested —
if a cleanup pass started for a database, then its save succeeded and
the clean flag was set. -/
theorem c10_cleanup_only_after_save (clean : Bool) (keep : Int)
    (listing : List String) (d : DB)
    (h : Event.cleanupStart d.name ∈ (processDb clean keep listing d).1) :
    d.saveResult = none ∧ clean = true := by
  cases hs : d.saveResult with
  | some e => simp [processDb, hs] at h
  | none =>
    cases hc : clean with
    | false => simp [processDb, hs, hc] at h
    | true => exact ⟨rfl, rfl⟩

/-- Witness for `c10_cleanup_only_after_save`: a database whose save
succeeded, with cleaning enabled, does start a cleanup pass. -/
theorem c10_witness :
    Event.cleanupStart "A" ∈ (processDb true 1 [] dbA).1 ∧
    (dbA.saveResult = none ∧ true = true) :=
  ⟨by decide, c10_cleanup_only_after_save true 1 [] dbA (by decide)⟩

end Dbbackup
